import Mathlib

set_option maxRecDepth 8000

/-!
Shallow embedding of the RP2040 repulsor-glove control program (`src/code.py`).

The program is a single main loop over a set of module-level mutable
variables.  We collect those variables into the structure `SysState` and
translate each function of the source into a pure Lean function that takes
the state (plus the values the source reads from hardware: the monotonic
clock, accelerometer samples, button edges, and the random flicker values)
and returns the updated state.

Python floats are modelled as rationals (`ℚ`); Python `int(...)` truncation
toward zero is `pyInt`.  The 20-slot circular angle buffer is a function
`ZMod 20 → ℚ` together with the write index, so the source's
`buffer_index = (buffer_index + 1) % len(angle_buffer)` is index addition in
`ZMod 20`.

The source reads `time.monotonic()` several times within one loop iteration;
the embedding supplies a single per-tick timestamp `now` for all of them.
Sound playback, status-LED output, and `print` calls are side effects with
no influence on the module state and are not modelled; the debug
accelerometer read in the `ON` state (source lines 420–422) likewise has no
state effect.  `atan2(y, z) * 180 / pi` is transcendental, so the projected
arm angle is passed to the embedding as an input rather than recomputed.
-/

/-- Operating states of the repulsor glove (`class RepulsorState` in the source). -/
inductive RState where
  | off
  | fading_on
  | on
  | fading_off
  | blast
  | always_on
  | color_change
  | shutdown
  deriving DecidableEq, Repr

/-- An RGB color triple (Python tuples of ints). -/
abbrev Color := ℤ × ℤ × ℤ

def RED : Color := (255, 0, 0)

def YELLOW : Color := (255, 255, 0)

def GREEN : Color := (0, 255, 0)

def CYAN : Color := (0, 255, 255)

def BLUE : Color := (0, 0, 255)

def PURPLE : Color := (255, 0, 255)

def WHITE : Color := (255, 255, 255)

def ORANGE : Color := (255, 128, 0)

/-- The palette `COLORS = [WHITE, RED, BLUE, CYAN, YELLOW, GREEN, PURPLE, ORANGE]`. -/
def COLORS : List Color := [WHITE, RED, BLUE, CYAN, YELLOW, GREEN, PURPLE, ORANGE]

def ANGLE_THRESHOLD : ℚ := 35

def MOVEMENT_THRESHOLD : ℚ := 0.8

def FADE_DURATION : ℚ := 500

def BLAST_DURATION : ℚ := 1500

def BLAST_COOLDOWN : ℚ := 1000

def ANGLE_CHECK_INTERVAL : ℚ := 50

def LONG_PRESS_THRESHOLD : ℚ := 1000

def VERY_LONG_PRESS_THRESHOLD : ℚ := 5000

def EXTRA_LONG_PRESS_THRESHOLD : ℚ := 8000

/-- Python `int(...)` applied to a float: truncation toward zero. -/
def pyInt (q : ℚ) : ℤ := if 0 ≤ q then ⌊q⌋ else ⌈q⌉

/-- All module-level mutable variables of the source, bundled. -/
structure SysState where
  current_state : RState
  color_index : ℕ
  current_color : Color
  fade_start_time : ℚ
  blast_start_time : ℚ
  last_angle_check_time : ℚ
  last_blast_time : ℚ
  button_press_start_time : ℚ
  angle_buffer : ZMod 20 → ℚ
  buffer_index : ZMod 20
  last_filtered_angle : ℚ
  blast_triggered : Bool

/-- The initial values of the module-level variables:
`current_state = OFF`, `color_index = 0`, `current_color = COLORS[0]`, all
timers zero, `angle_buffer = [0] * 20`, `blast_triggered = False`. -/
def initialState : SysState where
  current_state := RState.off
  color_index := 0
  current_color := COLORS.getD 0 (0, 0, 0)
  fade_start_time := 0
  blast_start_time := 0
  last_angle_check_time := 0
  last_blast_time := 0
  button_press_start_time := 0
  angle_buffer := fun _ => 0
  buffer_index := 0
  last_filtered_angle := 0
  blast_triggered := false

/-- Embeds `calculate_moving_average(new_value)`: write `new_value` at
`buffer_index`, advance the index mod 20, and return the mean of all 20
slots.  Returns the updated buffer, the updated index, and the average. -/
def calculate_moving_average (buf : ZMod 20 → ℚ) (idx : ZMod 20) (new_value : ℚ) :
    (ZMod 20 → ℚ) × ZMod 20 × ℚ :=
  let buf' := Function.update buf idx new_value
  (buf', idx + 1, (∑ j : ZMod 20, buf' j) / 20)

/-- Embeds `check_blast_gesture()`: true only when the state is `ON`, no blast is in
progress, the cooldown has elapsed, and the x acceleration exceeds 6.5.
The monotonic clock value and the accelerometer x reading are arguments. -/
def check_blast_gesture (st : SysState) (current_time x : ℚ) : Bool :=
  if st.current_state ≠ RState.on then false
  else if st.blast_triggered then false
  else if current_time - st.last_blast_time < BLAST_COOLDOWN then false
  else if x > 6.5 then true
  else false

/-- The `'raise'` / `'lower'` strings returned by `check_arm_angle`. -/
inductive ArmEvent where
  | raise
  | lower
  deriving DecidableEq, Repr

/-- Embeds `check_arm_angle()`: rate-limited to one check per
`ANGLE_CHECK_INTERVAL`; feeds the projected arm angle
(`atan2(y, z) * 180 / pi`, supplied here as the argument `angle`) to the
moving average; suppresses any event while the filtered angle moved less
than `MOVEMENT_THRESHOLD` since the last recorded value (in that case
`last_filtered_angle` is not updated); otherwise emits `raise` when the
filtered angle is ≤ `ANGLE_THRESHOLD` in state `OFF`, `lower` when it is
above the threshold in state `ON`, and records the filtered angle. -/
def check_arm_angle (st : SysState) (current_time angle : ℚ) :
    SysState × Option ArmEvent :=
  if current_time - st.last_angle_check_time < ANGLE_CHECK_INTERVAL then (st, none)
  else
    let st1 := { st with last_angle_check_time := current_time }
    let m := calculate_moving_average st1.angle_buffer st1.buffer_index angle
    let st2 := { st1 with angle_buffer := m.1, buffer_index := m.2.1 }
    let filtered_angle := m.2.2
    if |filtered_angle - st2.last_filtered_angle| < MOVEMENT_THRESHOLD then (st2, none)
    else
      let result : Option ArmEvent :=
        if filtered_angle ≤ ANGLE_THRESHOLD ∧ st2.current_state = RState.off then
          some ArmEvent.raise
        else if filtered_angle > ANGLE_THRESHOLD ∧ st2.current_state = RState.on then
          some ArmEvent.lower
        else none
      ({ st2 with last_filtered_angle := filtered_angle }, result)

/-- A rendered LED frame: a color per pixel (`NUM_PIXELS = 7`). -/
abbrev Frame := Fin 7 → Color

/-- Embeds `tuple(int(c * brightness / 255) for c in current_color)`. -/
def scaleColor (c : Color) (brightness : ℤ) : Color :=
  (pyInt ((c.1 : ℚ) * (brightness : ℚ) / 255),
   pyInt ((c.2.1 : ℚ) * (brightness : ℚ) / 255),
   pyInt ((c.2.2 : ℚ) * (brightness : ℚ) / 255))

/-- Embeds `update_leds()`: renders the current state to the pixel ring and performs
the time-based transitions `FADING_ON → ON`, `FADING_OFF → OFF`,
`BLAST → ON`.  The per-pixel random draws of the blast flicker
(`random.randint(100, 150)` and `random.randint(0, 2)`) are supplied as the
arguments `flickerV` and `flickerC`.  Returns the updated state and the
frame written to the pixels (`none` when the source writes no frame). -/
def update_leds (st : SysState) (current_time : ℚ)
    (flickerV : Fin 7 → ℕ) (flickerC : Fin 7 → ℕ) : SysState × Option Frame :=
  if st.current_state = RState.off then
    (st, some fun _ => (0, 0, 0))
  else if st.current_state = RState.fading_on then
    let elapsed := current_time - st.fade_start_time
    if elapsed < FADE_DURATION then
      let brightness := pyInt (elapsed / FADE_DURATION * 255)
      (st, some fun _ => scaleColor st.current_color brightness)
    else
      ({ st with current_state := RState.on }, some fun _ => st.current_color)
  else if st.current_state = RState.on ∨ st.current_state = RState.always_on then
    (st, some fun _ => st.current_color)
  else if st.current_state = RState.fading_off then
    let elapsed := current_time - st.fade_start_time
    if elapsed < FADE_DURATION then
      let brightness := 255 - pyInt (elapsed / FADE_DURATION * 255)
      (st, some fun _ => scaleColor st.current_color brightness)
    else
      ({ st with current_state := RState.off }, some fun _ => (0, 0, 0))
  else if st.current_state = RState.blast then
    let elapsed := current_time - st.blast_start_time
    if elapsed < BLAST_DURATION then
      (st, some fun i =>
        if flickerC i = 0 then ((flickerV i : ℤ), ((flickerV i) / 2 : ℕ), 0)
        else ((flickerV i : ℤ), (flickerV i : ℤ), (flickerV i : ℤ)))
    else
      ({ st with blast_triggered := false, current_state := RState.on },
        some fun _ => st.current_color)
  else (st, none)

/-- The press-duration buckets of the button classifier. -/
inductive PressBucket where
  | short
  | long
  | veryLong
  | extraLong
  deriving DecidableEq, Repr

/-- The press-duration classification inlined in `handle_button`
(lines 333–362): descending inclusive-lower threshold checks
`>= 8000`, `elif >= 5000`, `elif >= 1000`, `else`. -/
def classify_press (press_duration : ℚ) : PressBucket :=
  if press_duration ≥ EXTRA_LONG_PRESS_THRESHOLD then PressBucket.extraLong
  else if press_duration ≥ VERY_LONG_PRESS_THRESHOLD then PressBucket.veryLong
  else if press_duration ≥ LONG_PRESS_THRESHOLD then PressBucket.long
  else PressBucket.short

/-- Embeds `handle_button()`: on a pressed edge with idle tracking
(`button_press_start_time == 0`) record the press start; on a released edge
with active tracking compute the duration, reset tracking, and dispatch on
the press bucket: extra-long does nothing, very-long toggles
`ALWAYS_ON ↔ OFF` (entering `ALWAYS_ON` from any non-`ALWAYS_ON` state),
long toggles `COLOR_CHANGE` (back to `OFF` when already there), and a short
press in `COLOR_CHANGE` advances the palette index cyclically and applies
the new color.  The button edge flags and the clock are arguments. -/
def handle_button (st : SysState) (pressed released : Bool) (current_time : ℚ) :
    SysState :=
  let st1 :=
    if pressed = true ∧ st.button_press_start_time = 0 then
      { st with button_press_start_time := current_time }
    else st
  if released = true ∧ st1.button_press_start_time > 0 then
    let press_duration := current_time - st1.button_press_start_time
    let st2 := { st1 with button_press_start_time := 0 }
    match classify_press press_duration with
    | PressBucket.extraLong => st2
    | PressBucket.veryLong =>
      if st2.current_state = RState.always_on then
        { st2 with current_state := RState.off }
      else
        { st2 with current_state := RState.always_on }
    | PressBucket.long =>
      if st2.current_state ≠ RState.color_change then
        { st2 with current_state := RState.color_change }
      else
        { st2 with current_state := RState.off }
    | PressBucket.short =>
      if st2.current_state = RState.color_change then
        let idx := (st2.color_index + 1) % COLORS.length
        { st2 with color_index := idx, current_color := COLORS.getD idx (0, 0, 0) }
      else st2
  else st1

/-- The hardware readings consumed by one iteration of the main loop: the
debounced button edges, the monotonic clock (milliseconds), the
accelerometer x reading used by the blast check, the projected arm angle
`atan2(y, z) * 180 / pi` used by the angle check, and the random values
drawn by the blast flicker. -/
structure TickInput where
  pressed : Bool
  released : Bool
  now : ℚ
  x : ℚ
  angle : ℚ
  flickerV : Fin 7 → ℕ
  flickerC : Fin 7 → ℕ

/-- The arm-motion section of the main loop (lines 402–417): when the state
is neither `ALWAYS_ON` nor `BLAST`, run `check_arm_angle`; `'raise'` starts
the fade timer and enters `FADING_ON`, `'lower'` starts the fade timer and
enters `FADING_OFF`. -/
def arm_phase (st : SysState) (i : TickInput) : SysState :=
  let armRes :=
    if ¬(st.current_state = RState.always_on ∨ st.current_state = RState.blast) then
      check_arm_angle st i.now i.angle
    else (st, none)
  match armRes.2 with
  | some ArmEvent.raise =>
    { armRes.1 with fade_start_time := i.now, current_state := RState.fading_on }
  | some ArmEvent.lower =>
    { armRes.1 with fade_start_time := i.now, current_state := RState.fading_off }
  | none => armRes.1

/-- The blast section of the main loop (lines 425–431): when
`check_blast_gesture()` fires, set the blast flag, record the blast start
and last-blast timestamps, and enter `BLAST`. -/
def blast_phase (st : SysState) (i : TickInput) : SysState :=
  if check_blast_gesture st i.now i.x then
    { st with
        blast_triggered := true
        blast_start_time := i.now
        last_blast_time := i.now
        current_state := RState.blast }
  else st

/-- One iteration of the `while True` main loop: `handle_button()`, then
`continue` when the state is `COLOR_CHANGE` or `SHUTDOWN`, then the
arm-motion section, the blast section, and `update_leds()`. -/
def tick (st : SysState) (i : TickInput) : SysState :=
  let st1 := handle_button st i.pressed i.released i.now
  if st1.current_state = RState.color_change ∨ st1.current_state = RState.shutdown then
    st1
  else
    (update_leds (blast_phase (arm_phase st1 i) i) i.now i.flickerV i.flickerC).1

/-- The state after running the main loop once per element of `l`, starting
from the initial module state. -/
def run (l : List TickInput) : SysState :=
  l.foldl tick initialState

/-! ## Button classification lemmas -/

theorem classify_press_eq_extraLong_iff (d : ℚ) :
    classify_press d = PressBucket.extraLong ↔ EXTRA_LONG_PRESS_THRESHOLD ≤ d := by
  unfold classify_press
  split_ifs with h1 h2 h3 <;> simp_all

theorem classify_press_eq_veryLong_iff (d : ℚ) :
    classify_press d = PressBucket.veryLong ↔
      VERY_LONG_PRESS_THRESHOLD ≤ d ∧ d < EXTRA_LONG_PRESS_THRESHOLD := by
  unfold classify_press
  split_ifs with h1 h2 h3 <;>
    simp_all [EXTRA_LONG_PRESS_THRESHOLD, VERY_LONG_PRESS_THRESHOLD,
      LONG_PRESS_THRESHOLD] <;> intros <;> linarith

theorem classify_press_eq_long_iff (d : ℚ) :
    classify_press d = PressBucket.long ↔
      LONG_PRESS_THRESHOLD ≤ d ∧ d < VERY_LONG_PRESS_THRESHOLD := by
  unfold classify_press
  split_ifs with h1 h2 h3 <;>
    simp_all [EXTRA_LONG_PRESS_THRESHOLD, VERY_LONG_PRESS_THRESHOLD,
      LONG_PRESS_THRESHOLD] <;> intros <;> linarith

theorem classify_press_eq_short_iff (d : ℚ) :
    classify_press d = PressBucket.short ↔ d < LONG_PRESS_THRESHOLD := by
  unfold classify_press
  split_ifs with h1 h2 h3 <;>
    simp_all [EXTRA_LONG_PRESS_THRESHOLD, VERY_LONG_PRESS_THRESHOLD,
      LONG_PRESS_THRESHOLD] <;> intros <;> linarith

/-- Claim C1: `check_blast_gesture` returns true if and only if the state is
`On`, no blast is active, at least `BLAST_COOLDOWN` (1000 ms) has elapsed
since the last blast timestamp, and the x acceleration is strictly greater
than 6.5; whenever any of the four conditions fails it returns false. -/
theorem c1_check_blast_gesture_iff (st : SysState) (now x : ℚ) :
    check_blast_gesture st now x = true ↔
      st.current_state = RState.on ∧ st.blast_triggered = false ∧
        BLAST_COOLDOWN ≤ now - st.last_blast_time ∧ 6.5 < x := by
  unfold check_blast_gesture
  split_ifs with h1 h2 h3 h4 <;> simp_all <;> linarith

/-- Claim C3: press durations are classified by inclusive-lower thresholds
checked from longest to shortest, so exactly one bucket matches:
`duration ≥ 8000` is ExtraLong, else `≥ 5000` is VeryLong, else `≥ 1000` is
Long, else Short; in particular 1000 → Long, 999 → Short, 5000 → VeryLong,
8000 → ExtraLong. -/
theorem c3_press_bucket_boundaries (d : ℚ) :
    (classify_press d = PressBucket.extraLong ↔ EXTRA_LONG_PRESS_THRESHOLD ≤ d) ∧
    (classify_press d = PressBucket.veryLong ↔
      VERY_LONG_PRESS_THRESHOLD ≤ d ∧ d < EXTRA_LONG_PRESS_THRESHOLD) ∧
    (classify_press d = PressBucket.long ↔
      LONG_PRESS_THRESHOLD ≤ d ∧ d < VERY_LONG_PRESS_THRESHOLD) ∧
    (classify_press d = PressBucket.short ↔ d < LONG_PRESS_THRESHOLD) ∧
    classify_press 1000 = PressBucket.long ∧
    classify_press 999 = PressBucket.short ∧
    classify_press 5000 = PressBucket.veryLong ∧
    classify_press 8000 = PressBucket.extraLong := by
  refine ⟨classify_press_eq_extraLong_iff d, classify_press_eq_veryLong_iff d,
    classify_press_eq_long_iff d, classify_press_eq_short_iff d, ?_, ?_, ?_, ?_⟩ <;>
    with_unfolding_all decide

/-! ## Very-long and extra-long presses (C4, C9) -/

/-- A state in `FADING_ON` with an active button press started at time 1. -/
def cex4 : SysState :=
  { initialState with current_state := RState.fading_on, button_press_start_time := 1 }

/-- Claim C4 counterexample: in state `FadingOn` — a state outside
{On, Off, AlwaysOn} — a released press of duration exactly 5000 ms (a
VeryLong press) is not a no-op: it changes the state to `AlwaysOn`. -/
theorem c4_counterexample :
    cex4.current_state = RState.fading_on ∧
    VERY_LONG_PRESS_THRESHOLD ≤ 5001 - cex4.button_press_start_time ∧
    5001 - cex4.button_press_start_time < EXTRA_LONG_PRESS_THRESHOLD ∧
    (handle_button cex4 false true 5001).current_state = RState.always_on ∧
    (handle_button cex4 false true 5001).current_state ≠ cex4.current_state := by
  with_unfolding_all decide

/-- Claim C4 (amended): a VeryLong press (duration in [5000 ms, 8000 ms))
toggles from every state: when the current state is `AlwaysOn` it becomes
`Off`, and from every other state (including `FadingOn`, `FadingOff`,
`Blast`, `ColorChange`, `Shutdown`) it becomes `AlwaysOn`; it is a no-op in
no state. -/
theorem c4_very_long_press_toggle (s : SysState) (p : Bool) (now : ℚ)
    (hps : 0 < s.button_press_start_time)
    (h5 : VERY_LONG_PRESS_THRESHOLD ≤ now - s.button_press_start_time)
    (h8 : now - s.button_press_start_time < EXTRA_LONG_PRESS_THRESHOLD) :
    (handle_button s p true now).current_state =
      if s.current_state = RState.always_on then RState.off
      else RState.always_on := by
  have hcond : ¬(p = true ∧ s.button_press_start_time = 0) := by
    rintro ⟨-, h0⟩
    rw [h0] at hps
    exact lt_irrefl 0 hps
  have hcl : classify_press (now - s.button_press_start_time) = PressBucket.veryLong :=
    (classify_press_eq_veryLong_iff _).mpr ⟨h5, h8⟩
  simp only [handle_button, if_neg hcond, hcl]
  rw [if_pos ⟨trivial, hps⟩]
  split_ifs with h <;> rfl

/-- Witness for C4 (amended) at the concrete state `cex4` and time 5001. -/
theorem c4_very_long_press_toggle_witness :
    (handle_button cex4 false true 5001).current_state =
      if cex4.current_state = RState.always_on then RState.off
      else RState.always_on :=
  c4_very_long_press_toggle cex4 false 5001 (by with_unfolding_all decide)
    (by with_unfolding_all decide) (by with_unfolding_all decide)

/-- Claim C9: a released press of duration ≥ 8000 ms (ExtraLong) changes
nothing observable: the state, the palette index, the current color, and the
fade / blast / last-blast timers are all unchanged (only the press-tracking
variable returns to idle). -/
theorem c9_extra_long_press_noop (s : SysState) (p : Bool) (now : ℚ)
    (hps : 0 < s.button_press_start_time)
    (h8 : EXTRA_LONG_PRESS_THRESHOLD ≤ now - s.button_press_start_time) :
    (handle_button s p true now).current_state = s.current_state ∧
    (handle_button s p true now).color_index = s.color_index ∧
    (handle_button s p true now).current_color = s.current_color ∧
    (handle_button s p true now).fade_start_time = s.fade_start_time ∧
    (handle_button s p true now).blast_start_time = s.blast_start_time ∧
    (handle_button s p true now).last_blast_time = s.last_blast_time ∧
    (handle_button s p true now).blast_triggered = s.blast_triggered := by
  have hcond : ¬(p = true ∧ s.button_press_start_time = 0) := by
    rintro ⟨-, h0⟩
    rw [h0] at hps
    exact lt_irrefl 0 hps
  have hcl : classify_press (now - s.button_press_start_time) = PressBucket.extraLong :=
    (classify_press_eq_extraLong_iff _).mpr h8
  simp only [handle_button, if_neg hcond, hcl]
  rw [if_pos ⟨trivial, hps⟩]
  exact ⟨rfl, rfl, rfl, rfl, rfl, rfl, rfl⟩

/-- Witness for C9 at the concrete state `cex4` and time 9000. -/
theorem c9_extra_long_press_noop_witness :
    (handle_button cex4 false true 9000).current_state = cex4.current_state ∧
    (handle_button cex4 false true 9000).color_index = cex4.color_index ∧
    (handle_button cex4 false true 9000).current_color = cex4.current_color ∧
    (handle_button cex4 false true 9000).fade_start_time = cex4.fade_start_time ∧
    (handle_button cex4 false true 9000).blast_start_time = cex4.blast_start_time ∧
    (handle_button cex4 false true 9000).last_blast_time = cex4.last_blast_time ∧
    (handle_button cex4 false true 9000).blast_triggered = cex4.blast_triggered :=
  c9_extra_long_press_noop cex4 false 9000 (by with_unfolding_all decide)
    (by with_unfolding_all decide)

/-! ## Projection lemmas for the tick phases -/

theorem check_arm_angle_proj (s : SysState) (now a : ℚ) :
    (check_arm_angle s now a).1.current_state = s.current_state ∧
    (check_arm_angle s now a).1.color_index = s.color_index ∧
    (check_arm_angle s now a).1.current_color = s.current_color ∧
    (check_arm_angle s now a).1.fade_start_time = s.fade_start_time ∧
    (check_arm_angle s now a).1.blast_start_time = s.blast_start_time ∧
    (check_arm_angle s now a).1.last_blast_time = s.last_blast_time ∧
    (check_arm_angle s now a).1.button_press_start_time = s.button_press_start_time ∧
    (check_arm_angle s now a).1.blast_triggered = s.blast_triggered := by
  unfold check_arm_angle
  dsimp only
  split_ifs <;> exact ⟨rfl, rfl, rfl, rfl, rfl, rfl, rfl, rfl⟩

theorem arm_phase_proj (s : SysState) (i : TickInput) :
    (arm_phase s i).color_index = s.color_index ∧
    (arm_phase s i).current_color = s.current_color ∧
    (arm_phase s i).blast_start_time = s.blast_start_time ∧
    (arm_phase s i).last_blast_time = s.last_blast_time ∧
    (arm_phase s i).button_press_start_time = s.button_press_start_time ∧
    (arm_phase s i).blast_triggered = s.blast_triggered := by
  obtain ⟨-, h2, h3, -, h5, h6, h7, h8⟩ := check_arm_angle_proj s i.now i.angle
  unfold arm_phase
  dsimp only
  by_cases hc : s.current_state = RState.always_on ∨ s.current_state = RState.blast
  · rw [if_neg (not_not_intro hc)]
    exact ⟨rfl, rfl, rfl, rfl, rfl, rfl⟩
  · rw [if_pos hc]
    split <;> exact ⟨h2, h3, h5, h6, h7, h8⟩

theorem blast_phase_proj (s : SysState) (i : TickInput) :
    (blast_phase s i).color_index = s.color_index ∧
    (blast_phase s i).current_color = s.current_color ∧
    (blast_phase s i).button_press_start_time = s.button_press_start_time := by
  unfold blast_phase
  split_ifs <;> exact ⟨rfl, rfl, rfl⟩

theorem update_leds_proj (s : SysState) (now : ℚ) (fv fc : Fin 7 → ℕ) :
    (update_leds s now fv fc).1.color_index = s.color_index ∧
    (update_leds s now fv fc).1.current_color = s.current_color ∧
    (update_leds s now fv fc).1.button_press_start_time = s.button_press_start_time := by
  unfold update_leds
  dsimp only
  split_ifs <;> exact ⟨rfl, rfl, rfl⟩

theorem update_leds_state_blast (s : SysState) (now : ℚ) (fv fc : Fin 7 → ℕ) :
    (update_leds s now fv fc).1.current_state = RState.blast →
      s.current_state = RState.blast := by
  unfold update_leds
  dsimp only
  split_ifs <;> intro h <;> first | exact h | exact absurd h (by decide)

theorem check_blast_gesture_on (s : SysState) (t x : ℚ) :
    check_blast_gesture s t x = true → s.current_state = RState.on := by
  unfold check_blast_gesture
  split_ifs with h1 h2 h3 h4 <;> intro h <;>
    first | exact absurd h (by decide) | exact not_not.mp h1

theorem arm_phase_state (s : SysState) (i : TickInput) :
    (arm_phase s i).current_state = s.current_state ∨
    (arm_phase s i).current_state = RState.fading_on ∨
    (arm_phase s i).current_state = RState.fading_off := by
  unfold arm_phase
  dsimp only
  by_cases hc : s.current_state = RState.always_on ∨ s.current_state = RState.blast
  · rw [if_neg (not_not_intro hc)]
    left
    rfl
  · rw [if_pos hc]
    split
    · right; left; rfl
    · right; right; rfl
    · left
      exact (check_arm_angle_proj s i.now i.angle).1

theorem blast_phase_state (s : SysState) (i : TickInput) :
    (blast_phase s i).current_state = RState.blast →
      s.current_state = RState.on ∨ s.current_state = RState.blast := by
  unfold blast_phase
  split_ifs with hg
  · intro _
    exact Or.inl (check_blast_gesture_on s i.now i.x hg)
  · intro h
    exact Or.inr h

theorem handle_button_state (s : SysState) (p r : Bool) (now : ℚ) :
    (handle_button s p r now).current_state = s.current_state ∨
    (handle_button s p r now).current_state = RState.off ∨
    (handle_button s p r now).current_state = RState.always_on ∨
    (handle_button s p r now).current_state = RState.color_change := by
  unfold handle_button
  dsimp only
  split_ifs <;> try simp
  all_goals (split <;> first | (split_ifs <;> simp) | simp)

theorem tick_blast_step (s : SysState) (i : TickInput) :
    (tick s i).current_state = RState.blast →
      s.current_state = RState.on ∨ s.current_state = RState.blast := by
  unfold tick
  dsimp only
  split_ifs with hcc
  · intro h
    rcases hcc with hc | hc <;> rw [h] at hc <;> exact absurd hc (by decide)
  · intro h
    have h4 := update_leds_state_blast _ i.now i.flickerV i.flickerC h
    rcases blast_phase_state _ i h4 with h3 | h3
    · rcases arm_phase_state (handle_button s i.pressed i.released i.now) i with
        ha | ha | ha
      · have hs1 := ha.symm.trans h3
        rcases handle_button_state s i.pressed i.released i.now with hb | hb | hb | hb
        · exact Or.inl (hb.symm.trans hs1)
        · exact absurd (hb.symm.trans hs1) (by decide)
        · exact absurd (hb.symm.trans hs1) (by decide)
        · exact absurd (hb.symm.trans hs1) (by decide)
      · exact absurd (ha.symm.trans h3) (by decide)
      · exact absurd (ha.symm.trans h3) (by decide)
    · rcases arm_phase_state (handle_button s i.pressed i.released i.now) i with
        ha | ha | ha
      · have hs1 := ha.symm.trans h3
        rcases handle_button_state s i.pressed i.released i.now with hb | hb | hb | hb
        · exact Or.inr (hb.symm.trans hs1)
        · exact absurd (hb.symm.trans hs1) (by decide)
        · exact absurd (hb.symm.trans hs1) (by decide)
        · exact absurd (hb.symm.trans hs1) (by decide)
      · exact absurd (ha.symm.trans h3) (by decide)
      · exact absurd (ha.symm.trans h3) (by decide)

/-- Claim C2: in every execution of the main loop starting from the initial
(Off) state, the system is in `BLAST` after a tick only if the state before
that tick was `ON` (or the blast was already in progress): `Blast` is
entered only from `On`. -/
theorem c2_blast_only_from_on (l : List TickInput) (i : TickInput)
    (h : (tick (run l) i).current_state = RState.blast) :
    (run l).current_state = RState.on ∨ (run l).current_state = RState.blast :=
  tick_blast_step (run l) i h

/-- A tick whose angle reading raises the arm (filtered angle 0.8 ≤ 35 with
movement ≥ threshold) at time 100. -/
def t1 : TickInput := ⟨false, false, 100, 0, 16, fun _ => 100, fun _ => 1⟩

/-- A quiet tick at time 700, during which the fade completes. -/
def t2 : TickInput := ⟨false, false, 700, 0, 0.8, fun _ => 100, fun _ => 1⟩

/-- A tick at time 1300 with x acceleration 7 that fires the blast gesture. -/
def t3 : TickInput := ⟨false, false, 1300, 7, 0, fun _ => 100, fun _ => 1⟩

/-- Witness for C2: after the two ticks `[t1, t2]` the run from the initial
state is in `ON`, and the next tick `t3` enters `BLAST`. -/
theorem c2_blast_only_from_on_witness :
    (run [t1, t2]).current_state = RState.on ∨
      (run [t1, t2]).current_state = RState.blast :=
  c2_blast_only_from_on [t1, t2] t3 (by with_unfolding_all decide)

theorem handle_button_color (s : SysState) (p r : Bool) (now : ℚ) :
    ((handle_button s p r now).color_index = s.color_index ∧
      (handle_button s p r now).current_color = s.current_color) ∨
    (r = true ∧ s.current_state = RState.color_change ∧
      (handle_button s p r now).color_index = (s.color_index + 1) % 8 ∧
      (handle_button s p r now).current_color =
        COLORS.getD ((s.color_index + 1) % 8) (0, 0, 0) ∧
      (handle_button s p r now).current_state = RState.color_change) := by
  unfold handle_button
  dsimp only
  cases r <;>
    split_ifs <;>
      first
        | (left; exact ⟨rfl, rfl⟩)
        | (split <;>
            first
              | (left; exact ⟨rfl, rfl⟩)
              | (right; refine ⟨rfl, ?_, rfl, rfl, ?_⟩ <;> assumption)
              | (exfalso; simp_all))
        | (exfalso; simp_all)

theorem tick_color (s : SysState) (i : TickInput) :
    ((tick s i).color_index = s.color_index ∧
      (tick s i).current_color = s.current_color) ∨
    (i.released = true ∧ s.current_state = RState.color_change ∧
      (tick s i).color_index = (s.color_index + 1) % 8 ∧
      (tick s i).current_color = COLORS.getD ((s.color_index + 1) % 8) (0, 0, 0) ∧
      (tick s i).current_state = RState.color_change) := by
  unfold tick
  dsimp only
  rcases handle_button_color s i.pressed i.released i.now with
    ⟨hci, hcc⟩ | ⟨hr, hsc, hci, hcc, hst⟩
  · left
    split_ifs with h
    · exact ⟨hci, hcc⟩
    · constructor
      · rw [(update_leds_proj _ i.now i.flickerV i.flickerC).1,
          (blast_phase_proj _ i).1, (arm_phase_proj _ i).1, hci]
      · rw [(update_leds_proj _ i.now i.flickerV i.flickerC).2.1,
          (blast_phase_proj _ i).2.1, (arm_phase_proj _ i).2.1, hcc]
  · rw [if_pos (Or.inl hst)]
    right
    exact ⟨hr, hsc, hci, hcc, hst⟩

/-- One short press-and-release cycle: a pressed edge at time 10 followed by
a released edge at time 20 (duration 10 ms, below `LONG_PRESS_THRESHOLD`). -/
def shortPress (s : SysState) : SysState :=
  handle_button (handle_button s true false 10) false true 20

theorem shortPress_step (s : SysState)
    (hcc : s.current_state = RState.color_change)
    (hps : s.button_press_start_time = 0) :
    (shortPress s).current_state = RState.color_change ∧
    (shortPress s).button_press_start_time = 0 ∧
    (shortPress s).color_index = (s.color_index + 1) % 8 := by
  refine ⟨?_, ?_, ?_⟩ <;>
    norm_num [shortPress, handle_button, classify_press, hps, hcc, COLORS,
      LONG_PRESS_THRESHOLD, VERY_LONG_PRESS_THRESHOLD, EXTRA_LONG_PRESS_THRESHOLD]

theorem shortPress_iterate (N : ℕ) (s : SysState)
    (hcc : s.current_state = RState.color_change)
    (hps : s.button_press_start_time = 0)
    (hlt : s.color_index < 8) :
    (shortPress^[N] s).current_state = RState.color_change ∧
    (shortPress^[N] s).button_press_start_time = 0 ∧
    (shortPress^[N] s).color_index = (s.color_index + N) % 8 ∧
    (shortPress^[N] s).color_index < 8 := by
  induction N with
  | zero =>
    exact ⟨hcc, hps, (Nat.mod_eq_of_lt hlt).symm, hlt⟩
  | succ n ih =>
    obtain ⟨h1, h2, h3, h4⟩ := ih
    rw [Function.iterate_succ_apply']
    obtain ⟨g1, g2, g3⟩ := shortPress_step _ h1 h2
    refine ⟨g1, g2, ?_, ?_⟩
    · rw [g3, h3]
      omega
    · rw [g3]
      omega

/-- Claim C8: the palette index advances cyclically, `(index + 1) mod 8`, on
a short press only while the state is `ColorChange` (which it remains); in
every other situation a tick leaves the palette index and current color
unchanged; and N short presses in `ColorChange` starting from index 0 leave
the index at `N mod 8`. -/
theorem c8_palette_cycling :
    (∀ (s : SysState) (i : TickInput),
      ((tick s i).color_index = s.color_index ∧
        (tick s i).current_color = s.current_color) ∨
      (i.released = true ∧ s.current_state = RState.color_change ∧
        (tick s i).color_index = (s.color_index + 1) % 8 ∧
        (tick s i).current_color = COLORS.getD ((s.color_index + 1) % 8) (0, 0, 0) ∧
        (tick s i).current_state = RState.color_change)) ∧
    (∀ (s : SysState) (N : ℕ),
      s.current_state = RState.color_change →
      s.button_press_start_time = 0 →
      s.color_index = 0 →
      (shortPress^[N] s).color_index = N % 8) := by
  refine ⟨tick_color, fun s N h1 h2 h3 => ?_⟩
  have h := (shortPress_iterate N s h1 h2 (by omega)).2.2.1
  rw [h3] at h
  simpa using h

/-- A state sitting in `COLOR_CHANGE` with idle button tracking. -/
def ccState : SysState :=
  { initialState with current_state := RState.color_change }

/-- Witness for C8 at the concrete state `ccState`, the tick input `t3`, and
five short presses. -/
theorem c8_palette_cycling_witness :
    (((tick ccState t3).color_index = ccState.color_index ∧
       (tick ccState t3).current_color = ccState.current_color) ∨
      (t3.released = true ∧ ccState.current_state = RState.color_change ∧
        (tick ccState t3).color_index = (ccState.color_index + 1) % 8 ∧
        (tick ccState t3).current_color =
          COLORS.getD ((ccState.color_index + 1) % 8) (0, 0, 0) ∧
        (tick ccState t3).current_state = RState.color_change)) ∧
    (shortPress^[5] ccState).color_index = 5 % 8 :=
  ⟨c8_palette_cycling.1 ccState t3, c8_palette_cycling.2 ccState 5 rfl rfl rfl⟩

/-- The palette invariant: the color index is in range and the current color
is the palette entry at that index. -/
def ColorInv (s : SysState) : Prop :=
  s.color_index < 8 ∧ s.current_color = COLORS.getD s.color_index (0, 0, 0)

theorem tick_colorInv (s : SysState) (i : TickInput) :
    ColorInv s → ColorInv (tick s i) := by
  rintro ⟨h1, h2⟩
  rcases tick_color s i with ⟨hc1, hc2⟩ | ⟨-, -, hc1, hc2, -⟩
  · exact ⟨hc1 ▸ h1, by rw [hc2, h2, hc1]⟩
  · refine ⟨?_, ?_⟩
    · rw [hc1]
      exact Nat.mod_lt _ (by norm_num)
    · rw [hc2, hc1]

theorem foldl_colorInv (l : List TickInput) :
    ∀ s : SysState, ColorInv s → ColorInv (l.foldl tick s) := by
  induction l with
  | nil => exact fun s h => h
  | cons i l ih => exact fun s h => ih (tick s i) (tick_colorInv s i h)

/-- Claim C10: at every point of every execution the color index is in
range (`0 ≤ color_index < 8`) and the current color is `COLORS[color_index]`,
so the active color is always one of the 8 palette entries. -/
theorem c10_color_invariant (l : List TickInput) :
    (run l).color_index < 8 ∧
    (run l).current_color = COLORS.getD (run l).color_index (0, 0, 0) :=
  foldl_colorInv l initialState ⟨by decide, rfl⟩

/-! ## The moving-average filter fed with a constant value (C5) -/

/-- The filter state (buffer and write index) after calling
`calculate_moving_average` with the constant value `v` a total of `n`
times, starting from buffer `buf` and index `idx`. -/
def feedN (buf : ZMod 20 → ℚ) (idx : ZMod 20) (v : ℚ) : ℕ → (ZMod 20 → ℚ) × ZMod 20
  | 0 => (buf, idx)
  | n + 1 =>
    let p := feedN buf idx v n
    let m := calculate_moving_average p.1 p.2 v
    (m.1, m.2.1)

theorem feedN_idx (buf : ZMod 20 → ℚ) (idx : ZMod 20) (v : ℚ) (n : ℕ) :
    (feedN buf idx v n).2 = idx + (n : ZMod 20) := by
  induction n with
  | zero => simp [feedN]
  | succ n ih =>
    show (feedN buf idx v n).2 + 1 = idx + ((n + 1 : ℕ) : ZMod 20)
    rw [ih]
    push_cast
    ring

theorem feedN_buf (buf : ZMod 20 → ℚ) (idx : ZMod 20) (v : ℚ) (n : ℕ) (t : ZMod 20) :
    (feedN buf idx v n).1 t = if (t - idx).val < n then v else buf t := by
  induction n with
  | zero => simp [feedN]
  | succ n ih =>
    show Function.update (feedN buf idx v n).1 (feedN buf idx v n).2 v t = _
    rw [feedN_idx]
    by_cases ht : t = idx + (n : ZMod 20)
    · rw [ht, Function.update_same]
      rw [if_pos]
      rw [add_sub_cancel_left, ZMod.val_natCast]
      exact Nat.lt_succ_of_le (Nat.mod_le n 20)
    · rw [Function.update_noteq ht, ih]
      have hne : (t - idx).val ≠ n := by
        intro he
        apply ht
        have h2 : ((n : ℕ) : ZMod 20) = t - idx := by
          rw [← he]
          exact ZMod.natCast_rightInverse (t - idx)
        rw [h2]
        ring
      by_cases hlt : (t - idx).val < n
      · rw [if_pos hlt, if_pos (Nat.lt_succ_of_lt hlt)]
      · rw [if_neg hlt, if_neg (by omega)]

/-- Claim C5: the filter writes each new value into the 20-slot circular
buffer (overwriting the oldest slot) and returns the mean of all 20 slots;
consequently, feeding a constant value `v` at least 20 consecutive times
makes the filter output exactly `v`.  Here `feedN … n` is the filter state
after `n` constant feeds, so the displayed call is feed number `n + 1 ≥ 20`,
and the statement holds from any starting buffer, in particular the
zero-filled startup buffer. -/
theorem c5_moving_average_constant (buf : ZMod 20 → ℚ) (idx : ZMod 20) (v : ℚ)
    (n : ℕ) (h : 19 ≤ n) :
    (calculate_moving_average (feedN buf idx v n).1 (feedN buf idx v n).2 v).2.2 = v := by
  have hbuf : Function.update (feedN buf idx v n).1 (feedN buf idx v n).2 v =
      fun _ => v := by
    funext t
    rw [feedN_idx]
    by_cases ht : t = idx + (n : ZMod 20)
    · rw [ht, Function.update_same]
    · rw [Function.update_noteq ht, feedN_buf]
      rw [if_pos]
      by_cases hn : (t - idx).val = n
      · exfalso
        apply ht
        have h2 : ((n : ℕ) : ZMod 20) = t - idx := by
          rw [← hn]
          exact ZMod.natCast_rightInverse (t - idx)
        rw [h2]
        ring
      · have hv20 := ZMod.val_lt (t - idx)
        omega
  unfold calculate_moving_average
  dsimp only
  rw [hbuf, Finset.sum_const, Finset.card_univ, ZMod.card]
  simp

/-- Witness for C5: feeding the constant 1 twenty times into the zero-filled
startup buffer returns exactly 1 on the 20th call. -/
theorem c5_moving_average_constant_witness :
    (19 : ℕ) ≤ 19 ∧
    (calculate_moving_average (feedN (fun _ => 0) 0 1 19).1
      (feedN (fun _ => 0) 0 1 19).2 1).2.2 = 1 :=
  ⟨by decide, c5_moving_average_constant (fun _ => 0) 0 1 19 (by decide)⟩

/-- Claim C6: whenever the filtered angle that `check_arm_angle` computes
(the moving average after inserting the new raw angle) differs from the last
recorded filtered angle by strictly less than `MOVEMENT_THRESHOLD` (0.8),
no raise or lower event is emitted, regardless of the angle's value relative
to `ANGLE_THRESHOLD`. -/
theorem c6_hysteresis_no_event (st : SysState) (now angle : ℚ)
    (h : |(calculate_moving_average st.angle_buffer st.buffer_index angle).2.2 -
        st.last_filtered_angle| < MOVEMENT_THRESHOLD) :
    (check_arm_angle st now angle).2 = none := by
  unfold check_arm_angle
  dsimp only
  split_ifs with h1 h2 h3 h4 <;> first | rfl | exact absurd h h2

/-- Witness for C6: at the initial state (zero buffer, last filtered angle
0), feeding angle 0 at time 100 emits no event. -/
theorem c6_hysteresis_no_event_witness :
    (check_arm_angle initialState 100 0).2 = none :=
  c6_hysteresis_no_event initialState 100 0 (by with_unfolding_all decide)

/-- The brightness formula as the spec states it for the power-up fade:
`(elapsed / FADE_DURATION) * 255`, clamped to [0, 255] and truncated to an
integer.  Stated from the spec's words, for comparison with the code path
in `update_leds`. -/
def specBrightness (elapsed : ℚ) : ℤ :=
  pyInt (min (max (elapsed / FADE_DURATION * 255) 0) 255)

/-- Claim C7: in state `FadingOn` with `0 ≤ elapsed < FADE_DURATION` the
rendered frame fills every pixel with the current color scaled by
`brightness = (elapsed / 500) * 255` (clamped to [0, 255] and
integer-truncated — the clamp is inactive on this range, so the code's
unclamped formula agrees with the spec's clamped one), and the state stays
`FadingOn`; once `elapsed ≥ FADE_DURATION` the renderer fills the full
current color and the state becomes `On`. -/
theorem c7_fading_on_render (st : SysState) (now : ℚ) (fv fc : Fin 7 → ℕ)
    (hs : st.current_state = RState.fading_on)
    (h0 : 0 ≤ now - st.fade_start_time) :
    (now - st.fade_start_time < FADE_DURATION →
      (update_leds st now fv fc).1.current_state = RState.fading_on ∧
      (update_leds st now fv fc).2 =
        some fun _ => scaleColor st.current_color
          (specBrightness (now - st.fade_start_time))) ∧
    (FADE_DURATION ≤ now - st.fade_start_time →
      (update_leds st now fv fc).1.current_state = RState.on ∧
      (update_leds st now fv fc).2 = some fun _ => st.current_color) := by
  have hoff : ¬st.current_state = RState.off := by
    rw [hs]
    decide
  constructor
  · intro hlt
    have hb : pyInt ((now - st.fade_start_time) / FADE_DURATION * 255) =
        specBrightness (now - st.fade_start_time) := by
      unfold specBrightness
      congr 1
      rw [min_eq_left, max_eq_left]
      · exact mul_nonneg (div_nonneg h0 (by norm_num [FADE_DURATION])) (by norm_num)
      · rw [max_le_iff]
        refine ⟨?_, by norm_num⟩
        rw [div_mul_eq_mul_div,
          div_le_iff (by norm_num [FADE_DURATION] : (0 : ℚ) < FADE_DURATION)]
        norm_num [FADE_DURATION] at hlt ⊢
        linarith
    unfold update_leds
    dsimp only
    rw [if_neg hoff, if_pos hs, if_pos hlt, hb]
    exact ⟨hs, rfl⟩
  · intro hge
    unfold update_leds
    dsimp only
    rw [if_neg hoff, if_pos hs, if_neg (not_lt.mpr hge)]
    exact ⟨rfl, rfl⟩

/-- A state sitting in `FADING_ON` with the fade timer started at 0. -/
def fadingState : SysState :=
  { initialState with current_state := RState.fading_on }

/-- Witness for C7 at the concrete state `fadingState` and time 250. -/
theorem c7_fading_on_render_witness :
    ((250 : ℚ) - fadingState.fade_start_time < FADE_DURATION →
      (update_leds fadingState 250 (fun _ => 100) (fun _ => 1)).1.current_state =
        RState.fading_on ∧
      (update_leds fadingState 250 (fun _ => 100) (fun _ => 1)).2 =
        some fun _ => scaleColor fadingState.current_color
          (specBrightness (250 - fadingState.fade_start_time))) ∧
    (FADE_DURATION ≤ (250 : ℚ) - fadingState.fade_start_time →
      (update_leds fadingState 250 (fun _ => 100) (fun _ => 1)).1.current_state =
        RState.on ∧
      (update_leds fadingState 250 (fun _ => 100) (fun _ => 1)).2 =
        some fun _ => fadingState.current_color) :=
  c7_fading_on_render fadingState 250 (fun _ => 100) (fun _ => 1) rfl
    (by with_unfolding_all decide)

/-- Witness for C1: the iff evaluated at the initial state, time 2000, and
x acceleration 7. -/
theorem c1_check_blast_gesture_iff_witness :
    check_blast_gesture initialState 2000 7 = true ↔
      initialState.current_state = RState.on ∧
        initialState.blast_triggered = false ∧
        BLAST_COOLDOWN ≤ 2000 - initialState.last_blast_time ∧ (6.5 : ℚ) < 7 :=
  c1_check_blast_gesture_iff initialState 2000 7

/-- Witness for C3: the classification characterization at duration 1000. -/
theorem c3_press_bucket_boundaries_witness :
    (classify_press 1000 = PressBucket.extraLong ↔ EXTRA_LONG_PRESS_THRESHOLD ≤ 1000) ∧
    (classify_press 1000 = PressBucket.veryLong ↔
      VERY_LONG_PRESS_THRESHOLD ≤ 1000 ∧ (1000 : ℚ) < EXTRA_LONG_PRESS_THRESHOLD) ∧
    (classify_press 1000 = PressBucket.long ↔
      LONG_PRESS_THRESHOLD ≤ 1000 ∧ (1000 : ℚ) < VERY_LONG_PRESS_THRESHOLD) ∧
    (classify_press 1000 = PressBucket.short ↔ (1000 : ℚ) < LONG_PRESS_THRESHOLD) ∧
    classify_press 1000 = PressBucket.long ∧
    classify_press 999 = PressBucket.short ∧
    classify_press 5000 = PressBucket.veryLong ∧
    classify_press 8000 = PressBucket.extraLong :=
  c3_press_bucket_boundaries 1000

/-- Witness for C10: the invariant at the empty execution. -/
theorem c10_color_invariant_witness :
    (run []).color_index < 8 ∧
    (run []).current_color = COLORS.getD (run []).color_index (0, 0, 0) :=
  c10_color_invariant []
